import Mathlib

/-!
Verification development for the moltbot sequential toggle runner gateway
client (`OpenClawClient`).  We shallowly embed the client's run-completion
waiter (`waitForAgent`), per-run event handler registry, chat stream
accumulator, request correlator (`sendRequest`), session token tracker,
connect-request signature payload, and device identity derivation, and prove
the stated properties about them.

Execution model: the client is single threaded and event driven; every frame
or timer callback runs to completion before the next one.  We model one run's
observable state as a record and each delivered frame / fired timer /
settled request as an atomic signal processed by a step function.
-/

namespace Moltbot

/-- JavaScript `x || d` on an optional string: `undefined` and `""` are falsy. -/
def jsOrStr (x : Option String) (d : String) : String :=
  match x with
  | some s => if s = "" then d else s
  | none => d

/-! ## Chat messages and text extraction (sendPrompt's chatHandler) -/

/-- One element of a message's `content` array.  `textBlock` is a block with
`type === 'text'` and the given `text`; `otherBlock` is any other block. -/
inductive ContentBlock where
  | textBlock (text : String)
  | otherBlock
deriving DecidableEq, Repr

/-- The duck-typed shapes of `chatEvent.message`: a bare string, an object
whose `content` is a string, an object whose `content` is an array of blocks,
or an object without usable content. -/
inductive ChatMessage where
  | str (s : String)
  | contentStr (s : String)
  | contentBlocks (blocks : List ContentBlock)
  | otherObj
deriving DecidableEq, Repr

/-- JavaScript truthiness of `chatEvent.message` (`undefined` and `""` falsy,
objects truthy). -/
def messageTruthy : Option ChatMessage → Bool
  | none => false
  | some (.str s) => !(s = "")
  | some _ => true

/-- The text appended by the chatHandler's branch chain in `sendPrompt`
(lines 472-487): a bare string appends itself; `content` as a truthy string
appends itself; an array of blocks appends each `type === 'text'` block's
truthy `text` in order; anything else appends nothing. -/
def extractText : ChatMessage → String
  | .str s => s
  | .contentStr s => if s = "" then "" else s
  | .contentBlocks blocks =>
      blocks.foldl
        (fun acc b =>
          match b with
          | .textBlock t => if t = "" then acc else acc ++ t
          | .otherBlock => acc)
        ""
  | .otherObj => ""

/-- A chat event as delivered to a run's handler: its `state` string and its
optional `message`. -/
structure ChatEvent where
  state : String
  message : Option ChatMessage
deriving DecidableEq, Repr

/-! ## The per-run event handler registry and completion waiter

`this.eventHandlers` maps a run id to a single handler closure.  During one
`sendPrompt` call only two closures are ever stored under the active run id:
the composed chat-accumulation handler installed by `sendPrompt` (line 493),
and the lifecycle-only handler installed by `waitForAgent` (line 403), which
replaces whatever was there. -/

/-- Which closure is currently registered for the run id. -/
inductive RunHandler where
  | chatAccum
  | waiterOnly
deriving DecidableEq, Repr

/-- The settlement of `waitForAgent`'s promise. -/
inductive WaiterOutcome where
  | success
  | failure (msg : String)
deriving DecidableEq, Repr

/-- Observable state of one run inside `sendPrompt`:
the handler registered under the run id (if any), whether the agent-wait
deadline timer is still armed, the settlement of `waitForAgent`'s promise
(`none` while pending; a promise settles at most once), and the
`accumulatedResponse` buffer. -/
structure RunState where
  handler : Option RunHandler
  timerActive : Bool
  outcome : Option WaiterOutcome
  accumulated : String
deriving DecidableEq, Repr

/-- First settlement wins: `resolve`/`reject` on an already settled promise
is a no-op. -/
def settleOutcome (s : Option WaiterOutcome) (o : WaiterOutcome) : Option WaiterOutcome :=
  match s with
  | none => some o
  | some x => some x

/-- The atomic signals that can reach one run's state: a `chat` frame for the
run id, an `agent` lifecycle frame for the run id (carrying `phase` and
`error`), the agent-wait deadline timer firing, and the settlement of the
backup `agent.wait` request (`resolved`, or `rejected` with a message). -/
inductive RunSignal where
  | chatFrame (ev : ChatEvent)
  | agentLifecycleFrame (phase : String) (error : Option String)
  | timeoutFires
  | waitResponse (resolved : Bool) (msg : String)
deriving DecidableEq, Repr

/-- One step of the client's event loop for the run, translated from
`waitForAgent` (lines 395-438), `handleFrame` (lines 268-313) and the
chatHandler in `sendPrompt` (lines 468-496):
* a chat frame is routed to the registered handler; the chat-accumulation
  handler appends extracted text of truthy `delta` messages, the
  lifecycle-only handler ignores chat frames, and with no handler the frame
  is dropped;
* an agent lifecycle frame reaches the lifecycle-only handler, which on
  `phase === 'end'` clears the timer, deregisters and resolves, on
  `phase === 'error'` clears the timer, deregisters and rejects with
  `data.error || 'Agent error'`, and otherwise does nothing; the
  chat-accumulation handler ignores agent frames;
* the deadline timer (if still armed) deregisters and rejects with
  `Agent wait timeout after <N>ms`;
* the `agent.wait` request's `.then` clears the timer, deregisters and
  resolves unconditionally, while its `.catch` does so and rejects only if a
  handler is still registered for the run id. -/
def runStep (cfgTimeoutMs : Nat) (s : RunState) : RunSignal → RunState
  | .chatFrame ev =>
      match s.handler with
      | some .chatAccum =>
          if ev.state = "delta" ∧ messageTruthy ev.message then
            match ev.message with
            | some m => { s with accumulated := s.accumulated ++ extractText m }
            | none => s
          else s
      | some .waiterOnly => s
      | none => s
  | .agentLifecycleFrame phase err =>
      match s.handler with
      | some .waiterOnly =>
          if phase = "end" then
            { s with handler := none, timerActive := false,
                     outcome := settleOutcome s.outcome .success }
          else if phase = "error" then
            { s with handler := none, timerActive := false,
                     outcome := settleOutcome s.outcome (.failure (jsOrStr err "Agent error")) }
          else s
      | some .chatAccum => s
      | none => s
  | .timeoutFires =>
      if s.timerActive then
        { s with handler := none, timerActive := false,
                 outcome := settleOutcome s.outcome
                   (.failure ("Agent wait timeout after " ++ toString cfgTimeoutMs ++ "ms")) }
      else s
  | .waitResponse resolved msg =>
      if resolved then
        { s with handler := none, timerActive := false,
                 outcome := settleOutcome s.outcome .success }
      else
        if s.handler.isSome then
          { s with handler := none, timerActive := false,
                   outcome := settleOutcome s.outcome (.failure msg) }
        else s

/-- State right after `sendPrompt` reset `accumulatedResponse`, obtained the
run id, and registered the composed chat handler (line 493). -/
def afterChatHandlerInstall : RunState :=
  { handler := some .chatAccum, timerActive := false, outcome := none, accumulated := "" }

/-- `waitForAgent`'s synchronous prologue: arm the deadline timer and register
the lifecycle handler under the run id, replacing the existing entry
(`this.eventHandlers.set(runId, ...)`, line 403). -/
def waitForAgentInstall (s : RunState) : RunState :=
  { s with handler := some .waiterOnly, timerActive := true, outcome := none }

/-- The run state at the moment `sendPrompt` starts awaiting `waitForAgent`:
the chat handler has been installed and then replaced by the waiter's
lifecycle-only handler. -/
def sendPromptSetup : RunState :=
  waitForAgentInstall afterChatHandlerInstall

/-- The run state after processing a list of signals from the start of the
await, in delivery order. -/
def runTrace (cfgTimeoutMs : Nat) (sigs : List RunSignal) : RunState :=
  sigs.foldl (runStep cfgTimeoutMs) sendPromptSetup

/-! ## Request correlator (`sendRequest`, lines 318-344) -/

/-- The settlement of one `sendRequest` promise. -/
inductive ReqOutcome (α : Type) where
  | success (payload : α)
  | failure (msg : String)
deriving DecidableEq, Repr

/-- Observable state of one outstanding request: whether `messageHandlers`
still holds the entry for its id, whether its deadline timer is armed, and
the settlement of its promise. -/
structure ReqState (α : Type) where
  pending : Bool
  timerActive : Bool
  outcome : Option (ReqOutcome α)
deriving DecidableEq, Repr

/-- First settlement wins for the request promise as well. -/
def settleReq (s : Option (ReqOutcome α)) (o : ReqOutcome α) : Option (ReqOutcome α) :=
  match s with
  | none => some o
  | some x => some x

/-- The atomic signals for one request: a response frame with its id arrives
(`ok`, optional `error.message`, payload), or its deadline timer fires. -/
inductive ReqSignal (α : Type) where
  | response (ok : Bool) (errMsg : Option String) (payload : α)
  | timerFires
deriving DecidableEq, Repr

/-- One step for a request, translated from `handleFrame` (lines 268-286) and
`sendRequest` (lines 318-344): a response with a matching pending entry clears
the timer, settles the promise (failure with
`response.error?.message || '<method> failed'` when `ok` is false) and deletes
the entry; a response with no pending entry is dropped; the timer (if armed)
deletes the entry and rejects with `Request timeout for <method>`. -/
def reqStep (method : String) (s : ReqState α) : ReqSignal α → ReqState α
  | .response ok errMsg payload =>
      if s.pending then
        if ok then
          { pending := false, timerActive := false,
            outcome := settleReq s.outcome (.success payload) }
        else
          { pending := false, timerActive := false,
            outcome := settleReq s.outcome (.failure (jsOrStr errMsg (method ++ " failed"))) }
      else s
  | .timerFires =>
      if s.timerActive then
        { pending := false, timerActive := false,
          outcome := settleReq s.outcome (.failure ("Request timeout for " ++ method)) }
      else s

/-- State right after `sendRequest` registered the pending entry and armed the
deadline timer. -/
def reqInit : ReqState α :=
  { pending := true, timerActive := true, outcome := none }

/-! ## resetSession (lines 349-359) -/

/-- `resetSession` awaits `sessions.reset` inside `try`/`catch`; any failure
of the underlying request (server `ok=false` or request timeout) is swallowed
and logged, so the method always returns normally.  The result is the log
line it prints. -/
def resetSession (r : ReqOutcome α) : Except String String :=
  match r with
  | .success _ => .ok "Session reset successfully"
  | .failure _ => .ok "Session reset: no existing session (OK)"

/-! ## Session token tracking (`getSessionTokens`, lines 364-390) -/

/-- A token snapshot / token delta.  `cacheCreation` and `cacheRead` may be
absent (`undefined`).  Values are JavaScript numbers holding integers. -/
structure TokenUsage where
  total : Int
  input : Int
  output : Int
  cacheCreation : Option Int
  cacheRead : Option Int
deriving DecidableEq, Repr

/-- The all-zero snapshot `{ total: 0, input: 0, output: 0 }`. -/
def zeroTokens : TokenUsage :=
  { total := 0, input := 0, output := 0, cacheCreation := none, cacheRead := none }

/-- One entry of the `sessions.list` response payload; the counter fields may
be absent. -/
structure SessionMetadata where
  sessionKey : String
  totalTokens : Option Int
  inputTokens : Option Int
  outputTokens : Option Int
  cacheCreationTokens : Option Int
  cacheReadTokens : Option Int
deriving DecidableEq, Repr

/-- `getSessionTokens`: the whole body runs inside `try`/`catch`.  Its input
is the outcome of the `sessions.list` request: an exception (`.error`), or a
response whose `result.sessions` may be absent (`none`, defaulted to `[]` by
`|| []`).  It finds the session whose `sessionKey` equals the configured key
and returns its counters (each `|| 0`), passing the cache counters through
unchanged; with no match, or on any failure, it returns the all-zero
snapshot. -/
def getSessionTokens (key : String)
    (outcome : Except String (Option (List SessionMetadata))) : TokenUsage :=
  match outcome with
  | .error _ => zeroTokens
  | .ok r =>
      let sessions := r.getD []
      match sessions.find? (fun s => s.sessionKey = key) with
      | some session =>
          { total := session.totalTokens.getD 0
            input := session.inputTokens.getD 0
            output := session.outputTokens.getD 0
            cacheCreation := session.cacheCreationTokens
            cacheRead := session.cacheReadTokens }
      | none => zeroTokens

/-! ## sendPrompt's token delta and elapsed time (lines 443-521) -/

/-- JavaScript `x || undefined` on an integer: `0` is falsy and collapses to
`undefined`; any other value is kept. -/
def intOrUndef (d : Int) : Option Int :=
  if d = 0 then none else some d

/-- The token delta computed at the end of `sendPrompt` (lines 506-514):
plain per-field differences for `total`, `input`, `output`, and
`(end || 0) - (start || 0) || undefined` for the two cache counters. -/
def computeTokenDelta (startTokens endTokens : TokenUsage) : TokenUsage :=
  { total := endTokens.total - startTokens.total
    input := endTokens.input - startTokens.input
    output := endTokens.output - startTokens.output
    cacheCreation :=
      intOrUndef (endTokens.cacheCreation.getD 0 - startTokens.cacheCreation.getD 0)
    cacheRead :=
      intOrUndef (endTokens.cacheRead.getD 0 - startTokens.cacheRead.getD 0) }

/-- The numeric part of `sendPrompt`'s result. -/
structure PromptMetrics where
  tokens : TokenUsage
  timeMs : Int
deriving DecidableEq, Repr

/-- `sendPrompt`'s returned metrics, as a function of the clock reading and
token snapshot taken on entry (`startTime`, `startTokens`) and the clock
reading and token snapshot taken once the run completed (`endTime`,
`endTokens`): `{ tokens, timeMs: endTime - startTime }`. -/
def sendPromptMetrics (startTime : Int) (startTokens : TokenUsage)
    (endTime : Int) (endTokens : TokenUsage) : PromptMetrics :=
  { tokens := computeTokenDelta startTokens endTokens
    timeMs := endTime - startTime }

/-- The wall-clock timeline of one `sendPrompt` call: `entryTime` is the
`Date.now()` reading taken on entry (line 444), `completionTime` the
`Date.now()` reading taken right after the run completed (line 502), and
`returnTime` the instant the call actually returns — after the trailing
`getSessionTokens()` round trip (line 503) has settled, so
`completionTime ≤ returnTime`, with strict inequality whenever that query
takes nonzero time.  The code never reads `returnTime`. -/
structure PromptTimeline where
  entryTime : Int
  completionTime : Int
  returnTime : Int
deriving DecidableEq, Repr

/-- The wall-clock span of the whole `sendPrompt` call: from entry to
return. -/
def callWallClockSpan (tl : PromptTimeline) : Int :=
  tl.returnTime - tl.entryTime

/-! ## Connect request signature payload (`sendConnectRequest`, lines 143-208) -/

/-- `Array.prototype.join(sep)`. -/
def joinWith (sep : String) : List String → String
  | [] => ""
  | [x] => x
  | x :: y :: rest => x ++ sep ++ joinWith sep (y :: rest)

/-- The fixed client id used by the runner. -/
def clientIdConst : String := "openclaw-control-ui"

/-- The fixed client mode. -/
def clientModeConst : String := "ui"

/-- The fixed role. -/
def roleConst : String := "operator"

/-- The fixed scope list. -/
def scopesConst : List String := ["operator.read", "operator.write", "operator.admin"]

/-- The ordered fields of the signature payload (lines 156-170): version
(`'v2'` when a truthy nonce was supplied, else `'v1'`), deviceId, clientId,
clientMode, role, comma-joined scopes, `String(signedAt)`, token; the nonce
is pushed as a final field exactly when truthy. -/
def connectPayloadParts (deviceId token : String) (signedAt : Nat)
    (nonce : Option String) : List String :=
  let version :=
    match nonce with
    | some n => if n = "" then "v1" else "v2"
    | none => "v1"
  let base := [version, deviceId, clientIdConst, clientModeConst, roleConst,
               joinWith "," scopesConst, toString signedAt, token]
  match nonce with
  | some n => if n = "" then base else base ++ [n]
  | none => base

/-- `payloadParts.join('|')` — the string that gets signed. -/
def connectSignPayload (deviceId token : String) (signedAt : Nat)
    (nonce : Option String) : String :=
  joinWith "|" (connectPayloadParts deviceId token signedAt nonce)

/-! ## Device identity (`generateDeviceIdentity`, lines 50-76)

We embed the platform primitives the code calls: SHA-256
(`crypto.createHash('sha256')`) over byte lists, and Node's lowercase hex
encoding (`digest('hex')`).  Bytes are `Nat`s kept below 256 by construction;
32-bit words are `Nat`s reduced mod `2^32`. -/

/-- Reduce to a 32-bit word. -/
def w32 (n : Nat) : Nat := n % 4294967296

/-- 32-bit right rotation. -/
def rotr32 (k x : Nat) : Nat := w32 ((x >>> k) ||| (x <<< (32 - k)))

/-- 32-bit complement. -/
def not32 (x : Nat) : Nat := x ^^^ 4294967295

/-- SHA-256 Ch. -/
def shaCh (x y z : Nat) : Nat := (x &&& y) ^^^ (not32 x &&& z)

/-- SHA-256 Maj. -/
def shaMaj (x y z : Nat) : Nat := (x &&& y) ^^^ (x &&& z) ^^^ (y &&& z)

/-- SHA-256 Σ0. -/
def bigSigma0 (x : Nat) : Nat := rotr32 2 x ^^^ rotr32 13 x ^^^ rotr32 22 x

/-- SHA-256 Σ1. -/
def bigSigma1 (x : Nat) : Nat := rotr32 6 x ^^^ rotr32 11 x ^^^ rotr32 25 x

/-- SHA-256 σ0. -/
def smallSigma0 (x : Nat) : Nat := rotr32 7 x ^^^ rotr32 18 x ^^^ (x >>> 3)

/-- SHA-256 σ1. -/
def smallSigma1 (x : Nat) : Nat := rotr32 17 x ^^^ rotr32 19 x ^^^ (x >>> 10)

/-- The 64 SHA-256 round constants (FIPS 180-4, written in decimal). -/
def sha256K : List Nat :=
  [1116352408, 1899447441, 3049323471, 3921009573, 961987163,
   1508970993, 2453635748, 2870763221, 3624381080, 310598401,
   607225278, 1426881987, 1925078388, 2162078206, 2614888103,
   3248222580, 3835390401, 4022224774, 264347078, 604807628,
   770255983, 1249150122, 1555081692, 1996064986, 2554220882,
   2821834349, 2952996808, 3210313671, 3336571891, 3584528711,
   113926993, 338241895, 666307205, 773529912, 1294757372,
   1396182291, 1695183700, 1986661051, 2177026350, 2456956037,
   2730485921, 2820302411, 3259730800, 3345764771, 3516065817,
   3600352804, 4094571909, 275423344, 430227734, 506948616,
   659060556, 883997877, 958139571, 1322822218, 1537002063,
   1747873779, 1955562222, 2024104815, 2227730452, 2361852424,
   2428436474, 2756734187, 3204031479, 3329325298]

/-- The SHA-256 working state: eight 32-bit words. -/
structure Sha256State where
  a : Nat
  b : Nat
  c : Nat
  d : Nat
  e : Nat
  f : Nat
  g : Nat
  h : Nat
deriving DecidableEq, Repr

/-- The SHA-256 initial hash value (FIPS 180-4, written in decimal). -/
def sha256init : Sha256State :=
  ⟨1779033703, 3144134277, 1013904242, 2773480762,
   1359893119, 2600822924, 528734635, 1541459225⟩

/-- `k` big-endian bytes of `n`. -/
def beBytes : Nat → Nat → List Nat
  | 0, _ => []
  | k + 1, n => beBytes k (n / 256) ++ [n % 256]

/-- SHA-256 padding: append `0x80`, then zeros up to 56 mod 64, then the
64-bit big-endian bit length. -/
def sha256pad (msg : List Nat) : List Nat :=
  msg ++ [0x80] ++ List.replicate ((119 - msg.length % 64) % 64) 0
      ++ beBytes 8 (msg.length * 8)

/-- Group four big-endian bytes into one 32-bit word, across the list. -/
def toWords : List Nat → List Nat
  | a :: b :: c :: d :: rest => (a * 16777216 + b * 65536 + c * 256 + d) :: toWords rest
  | _ => []

/-- Append the next message-schedule word. -/
def scheduleStep (w : List Nat) : List Nat :=
  w ++ [w32 (smallSigma1 (w.getD (w.length - 2) 0) + w.getD (w.length - 7) 0
             + smallSigma0 (w.getD (w.length - 15) 0) + w.getD (w.length - 16) 0)]

/-- Iterate the schedule extension. -/
def scheduleExtend : Nat → List Nat → List Nat
  | 0, w => w
  | k + 1, w => scheduleExtend k (scheduleStep w)

/-- The full 64-word message schedule of one 64-byte chunk. -/
def sha256schedule (chunk : List Nat) : List Nat :=
  scheduleExtend 48 (toWords chunk)

/-- One SHA-256 compression round. -/
def compressRound (st : Sha256State) (kw : Nat × Nat) : Sha256State :=
  let t1 := w32 (st.h + bigSigma1 st.e + shaCh st.e st.f st.g + kw.1 + kw.2)
  let t2 := w32 (bigSigma0 st.a + shaMaj st.a st.b st.c)
  ⟨w32 (t1 + t2), st.a, st.b, st.c, w32 (st.d + t1), st.e, st.f, st.g⟩

/-- Process one 64-byte chunk. -/
def processChunk (st : Sha256State) (chunk : List Nat) : Sha256State :=
  let r := (sha256K.zip (sha256schedule chunk)).foldl compressRound st
  ⟨w32 (st.a + r.a), w32 (st.b + r.b), w32 (st.c + r.c), w32 (st.d + r.d),
   w32 (st.e + r.e), w32 (st.f + r.f), w32 (st.g + r.g), w32 (st.h + r.h)⟩

/-- Split into consecutive 64-byte chunks (the padded length is a multiple
of 64). -/
def takeChunks : Nat → List Nat → List (List Nat)
  | 0, _ => []
  | n + 1, l => l.take 64 :: takeChunks n (l.drop 64)

/-- SHA-256 of a byte list. -/
def sha256 (msg : List Nat) : List Nat :=
  let padded := sha256pad msg
  let final := (takeChunks (padded.length / 64) padded).foldl processChunk sha256init
  beBytes 4 final.a ++ beBytes 4 final.b ++ beBytes 4 final.c ++ beBytes 4 final.d
    ++ beBytes 4 final.e ++ beBytes 4 final.f ++ beBytes 4 final.g ++ beBytes 4 final.h

/-- The sixteen lowercase hex digits. -/
def hexDigitsLower : List Char :=
  String.data "0123456789abcdef"

/-- One lowercase hex digit: the `n`-th entry of the digit table. -/
def hexChar (n : Nat) : Char :=
  hexDigitsLower.getD n '0'

/-- Node's `Buffer.toString('hex')`: two lowercase hex digits per byte. -/
def bytesToHex (bs : List Nat) : String :=
  String.mk ((bs.map (fun b => [hexChar (b / 16), hexChar (b % 16)])).flatten)

/-- The 12-byte DER prefix `302a300506032b6570032100` of an Ed25519 SPKI
(the source's `ED25519_SPKI_PREFIX`). -/
def spkiHeaderBytes : List Nat :=
  [0x30, 0x2a, 0x30, 0x05, 0x06, 0x03, 0x2b, 0x65, 0x70, 0x03, 0x21, 0x00]

/-- `derivePublicKeyRaw` (lines 56-66): when the DER-encoded SPKI is exactly
the Ed25519 prefix followed by 32 bytes, strip the prefix; otherwise return
the SPKI unchanged. -/
def derivePublicKeyRaw (spki : List Nat) : List Nat :=
  if spki.length = spkiHeaderBytes.length + 32 ∧
      spki.take spkiHeaderBytes.length = spkiHeaderBytes then
    spki.drop spkiHeaderBytes.length
  else spki

/-- The device id computed by `generateDeviceIdentity` (line 73) as a
function of the exported SPKI bytes of the public key:
`crypto.createHash('sha256').update(publicKeyRaw).digest('hex')`. -/
def deviceIdFromSpki (spki : List Nat) : String :=
  bytesToHex (sha256 (derivePublicKeyRaw spki))

/-! ## Auxiliary definitions used by the theorems -/

/-- States of the run machine reachable from `sendPromptSetup`: either the
waiter is still pending (lifecycle handler registered, timer armed, promise
unsettled), or it has settled (handler deregistered, timer cleared, promise
settled). -/
def RunInv (s : RunState) : Prop :=
  (s.handler = some RunHandler.waiterOnly ∧ s.timerActive = true ∧ s.outcome = none) ∨
  (s.handler = none ∧ s.timerActive = false ∧ s.outcome.isSome = true)

/-- The accumulation `sendPrompt`'s chat handler performs on a list of chat
events when it actually receives them — i.e. the behaviour of the handler the
code installs at line 493, before `waitForAgent` replaces the registry entry.
Used to exhibit the divergence between the installed handler's text
extraction and what the client observably returns. -/
def chatHandlerAccumulate (evs : List ChatEvent) : String :=
  (evs.foldl (fun s ev => runStep 0 s (.chatFrame ev)) afterChatHandlerInstall).accumulated

/-! ## Invariant lemmas for the run machine -/

theorem runStep_preserves_inv (cfg : Nat) (s : RunState) (sig : RunSignal)
    (h : RunInv s) : RunInv (runStep cfg s sig) := by
  obtain ⟨hd, tm, oc, acc⟩ := s
  rcases h with ⟨h1, h2, h3⟩ | ⟨h1, h2, h3⟩
  · simp only [RunState.handler] at h1
    simp only [RunState.timerActive] at h2
    simp only [RunState.outcome] at h3
    subst h1 h2 h3
    cases sig with
    | chatFrame ev =>
        simp [runStep, RunInv]
    | agentLifecycleFrame phase err =>
        by_cases hp : phase = "end"
        · simp [runStep, hp, settleOutcome, RunInv]
        · by_cases he : phase = "error"
          · simp [runStep, hp, he, settleOutcome, RunInv]
          · simp [runStep, hp, he, RunInv]
    | timeoutFires =>
        simp [runStep, settleOutcome, RunInv]
    | waitResponse resolved msg =>
        cases resolved <;> simp [runStep, settleOutcome, RunInv]
  · simp only [RunState.handler] at h1
    simp only [RunState.timerActive] at h2
    simp only [RunState.outcome] at h3
    obtain ⟨x, hx⟩ := Option.isSome_iff_exists.mp h3
    subst h1 h2 hx
    cases sig with
    | chatFrame ev => simp [runStep, RunInv]
    | agentLifecycleFrame phase err => simp [runStep, RunInv]
    | timeoutFires => simp [runStep, RunInv]
    | waitResponse resolved msg =>
        cases resolved <;> simp [runStep, settleOutcome, RunInv]

theorem runTrace_inv (cfg : Nat) (sigs : List RunSignal) : RunInv (runTrace cfg sigs) := by
  have base : RunInv sendPromptSetup := Or.inl ⟨rfl, rfl, rfl⟩
  have gen : ∀ (l : List RunSignal) (s : RunState), RunInv s →
      RunInv (l.foldl (runStep cfg) s) := by
    intro l
    induction l with
    | nil => intro s hs; simpa using hs
    | cons a t ih => intro s hs; exact ih _ (runStep_preserves_inv cfg s a hs)
  simpa [runTrace] using gen sigs sendPromptSetup base

/-! ## Claim theorems -/

/-- Claim C1: for a run with an outstanding completion waiter (lifecycle
handler registered, promise pending), delivering an `agent` lifecycle frame
with `phase = "end"` settles the waiter's promise as success and deregisters
the run's handler, and every subsequent signal — in particular the explicit
`agent.wait` response — leaves the settled state unchanged, so there is no
second settlement. -/
theorem waitForAgent_lifecycle_end_settles_once (cfg : Nat) (s : RunState)
    (hreg : s.handler = some RunHandler.waiterOnly) (hpend : s.outcome = none)
    (err : Option String) :
    (runStep cfg s (.agentLifecycleFrame "end" err)).outcome = some WaiterOutcome.success ∧
    (runStep cfg s (.agentLifecycleFrame "end" err)).handler = none ∧
    ∀ sig, runStep cfg (runStep cfg s (.agentLifecycleFrame "end" err)) sig
        = runStep cfg s (.agentLifecycleFrame "end" err) := by
  obtain ⟨hd, tm, oc, acc⟩ := s
  simp only [RunState.handler] at hreg
  simp only [RunState.outcome] at hpend
  subst hreg hpend
  refine ⟨by simp [runStep, settleOutcome], by simp [runStep], ?_⟩
  intro sig
  cases sig with
  | chatFrame ev => simp [runStep, settleOutcome]
  | agentLifecycleFrame phase e => simp [runStep, settleOutcome]
  | timeoutFires => simp [runStep, settleOutcome]
  | waitResponse resolved msg =>
      cases resolved <;> simp [runStep, settleOutcome]

/-- Concrete check of C1 from the state at the start of the await, with the
15-minute configured timeout and a late `agent.wait` success response. -/
theorem waitForAgent_lifecycle_end_settles_once_witness :
    (runStep 900000 sendPromptSetup (.agentLifecycleFrame "end" none)).outcome
        = some WaiterOutcome.success ∧
    (runStep 900000 sendPromptSetup (.agentLifecycleFrame "end" none)).handler = none ∧
    runStep 900000 (runStep 900000 sendPromptSetup (.agentLifecycleFrame "end" none))
        (.waitResponse true "")
      = runStep 900000 sendPromptSetup (.agentLifecycleFrame "end" none) := by
  obtain ⟨h1, h2, h3⟩ :=
    waitForAgent_lifecycle_end_settles_once 900000 sendPromptSetup (by decide) (by decide) none
  exact ⟨h1, h2, h3 _⟩

/-- Claim C2: on every reachable state of the run machine, the `agent.wait`
response settles the waiter as success exactly when the run's handler is
still registered at that moment; when the handler is no longer registered,
processing the response (success or failure) leaves the state unchanged and
the waiter had already settled — the registry presence is the single source
of truth for "not yet settled". -/
theorem waitForAgent_response_settles_only_if_registered (cfg : Nat)
    (sigs : List RunSignal) :
    ((runTrace cfg sigs).handler.isSome = true →
      ∀ msg, (runStep cfg (runTrace cfg sigs) (.waitResponse true msg)).outcome
          = some WaiterOutcome.success) ∧
    ((runTrace cfg sigs).handler.isSome = false →
      ∀ resolved msg,
        runStep cfg (runTrace cfg sigs) (.waitResponse resolved msg) = runTrace cfg sigs ∧
        (runTrace cfg sigs).outcome ≠ none) := by
  have hinv := runTrace_inv cfg sigs
  revert hinv
  generalize runTrace cfg sigs = t
  intro hinv
  obtain ⟨hd, tm, oc, acc⟩ := t
  rcases hinv with ⟨h1, h2, h3⟩ | ⟨h1, h2, h3⟩
  · simp only [RunState.handler] at h1
    simp only [RunState.timerActive] at h2
    simp only [RunState.outcome] at h3
    subst h1 h2 h3
    constructor
    · intro _ msg; simp [runStep, settleOutcome]
    · intro hfalse; simp at hfalse
  · simp only [RunState.handler] at h1
    simp only [RunState.timerActive] at h2
    simp only [RunState.outcome] at h3
    obtain ⟨x, hx⟩ := Option.isSome_iff_exists.mp h3
    subst h1 h2 hx
    constructor
    · intro htrue; simp at htrue
    · intro _ resolved msg
      cases resolved <;> simp [runStep, settleOutcome]

/-- Concrete check of C2: from the fresh await (handler registered) the
response resolves success; after a timeout already settled the run (handler
gone), a late response is a no-op. -/
theorem waitForAgent_response_settles_only_if_registered_witness :
    (runStep 900000 (runTrace 900000 []) (.waitResponse true "")).outcome
        = some WaiterOutcome.success ∧
    runStep 900000 (runTrace 900000 [RunSignal.timeoutFires]) (.waitResponse true "")
        = runTrace 900000 [RunSignal.timeoutFires] := by
  refine ⟨(waitForAgent_response_settles_only_if_registered 900000 []).1 (by decide) "", ?_⟩
  exact ((waitForAgent_response_settles_only_if_registered 900000
    [RunSignal.timeoutFires]).2 (by decide) true "").1

/-- Counterexample to claim C3 as stated: with the configured 15-minute
(900000 ms) agent-wait timeout, the deadline rejection message produced by
the code is `Agent wait timeout after 900000ms` (capital `A`), not the
claimed `agent wait timeout after 900000ms`. -/
theorem agent_wait_timeout_message_cex :
    (runStep 900000 sendPromptSetup RunSignal.timeoutFires).outcome
        = some (WaiterOutcome.failure "Agent wait timeout after 900000ms") ∧
    ¬ (runStep 900000 sendPromptSetup RunSignal.timeoutFires).outcome
        = some (WaiterOutcome.failure "agent wait timeout after 900000ms") := by
  decide

/-- Claim C3 (amended: the failure message is `Agent wait timeout after
<N>ms`, with a capital `A`): if the deadline timer fires while the waiter is
pending, the waiter rejects with that message and the run's handler is
deregistered, and a lifecycle frame delivered after the deadline leaves the
state unchanged (total function — no crash, no effect). -/
theorem waitForAgent_timeout_rejects_and_deregisters (cfg : Nat) (s : RunState)
    (htimer : s.timerActive = true) (hpend : s.outcome = none) :
    (runStep cfg s RunSignal.timeoutFires).outcome
        = some (WaiterOutcome.failure ("Agent wait timeout after " ++ toString cfg ++ "ms")) ∧
    (runStep cfg s RunSignal.timeoutFires).handler = none ∧
    ∀ phase err,
      runStep cfg (runStep cfg s RunSignal.timeoutFires) (.agentLifecycleFrame phase err)
        = runStep cfg s RunSignal.timeoutFires := by
  obtain ⟨hd, tm, oc, acc⟩ := s
  simp only [RunState.timerActive] at htimer
  simp only [RunState.outcome] at hpend
  subst htimer hpend
  refine ⟨by simp [runStep, settleOutcome], by simp [runStep], ?_⟩
  intro phase err
  simp [runStep, settleOutcome]

/-- Concrete check of C3 (amended) with the configured 900000 ms timeout and
a stray lifecycle `end` frame after the deadline. -/
theorem waitForAgent_timeout_rejects_and_deregisters_witness :
    (runStep 900000 sendPromptSetup RunSignal.timeoutFires).outcome
        = some (WaiterOutcome.failure ("Agent wait timeout after " ++ toString 900000 ++ "ms")) ∧
    (runStep 900000 sendPromptSetup RunSignal.timeoutFires).handler = none ∧
    runStep 900000 (runStep 900000 sendPromptSetup RunSignal.timeoutFires)
        (.agentLifecycleFrame "end" none)
      = runStep 900000 sendPromptSetup RunSignal.timeoutFires := by
  obtain ⟨h1, h2, h3⟩ :=
    waitForAgent_timeout_rejects_and_deregisters 900000 sendPromptSetup (by decide) (by decide)
  exact ⟨h1, h2, h3 "end" none⟩

/-- Claim C4 is a code bug: because `waitForAgent` replaces the run's
registry entry (the composed chat handler installed by `sendPrompt`) with a
lifecycle-only handler, the delta events for the run never reach the chat
handler.  On the claim's input — deltas `"Hel"`, `"lo, "`, `"world"` followed
by lifecycle `end` — the client's accumulated response is `""`, not
`"Hello, world"`, even though the run completes successfully; the chat
handler itself, had its registration survived, extracts exactly
`"Hello, world"` from all three message shapes. -/
theorem sendPrompt_handler_overwrite_drops_deltas :
    (runTrace 900000
      [.chatFrame ⟨"delta", some (.str "Hel")⟩,
       .chatFrame ⟨"delta", some (.str "lo, ")⟩,
       .chatFrame ⟨"delta", some (.str "world")⟩,
       .agentLifecycleFrame "end" none]).accumulated = "" ∧
    (runTrace 900000
      [.chatFrame ⟨"delta", some (.str "Hel")⟩,
       .chatFrame ⟨"delta", some (.str "lo, ")⟩,
       .chatFrame ⟨"delta", some (.str "world")⟩,
       .agentLifecycleFrame "end" none]).outcome = some WaiterOutcome.success ∧
    chatHandlerAccumulate
      [⟨"delta", some (.str "Hel")⟩,
       ⟨"delta", some (.str "lo, ")⟩,
       ⟨"delta", some (.str "world")⟩] = "Hello, world" ∧
    chatHandlerAccumulate
      [⟨"delta", some (.str "Hel")⟩,
       ⟨"delta", some (.contentStr "lo, ")⟩,
       ⟨"delta", some (.contentBlocks [.textBlock "world", .otherBlock])⟩]
      = "Hello, world" := by
  decide

/-- Counterexample to claim C5 as stated: for `method = "chat.send"`, the
deadline rejection message produced by the code is
`Request timeout for chat.send` (capital `R`), not the claimed
`request timeout for chat.send`. -/
theorem request_timeout_message_cex :
    (reqStep "chat.send" (reqInit (α := Nat)) ReqSignal.timerFires).outcome
        = some (ReqOutcome.failure "Request timeout for chat.send") ∧
    ¬ (reqStep "chat.send" (reqInit (α := Nat)) ReqSignal.timerFires).outcome
        = some (ReqOutcome.failure "request timeout for chat.send") := by
  decide

/-- Claim C5 (amended: the timeout message is `Request timeout for <method>`,
with a capital `R`): for an outstanding request (pending entry, armed timer,
unsettled promise), an `ok` response settles success with its payload; an
`ok=false` response settles failure carrying the server's (non-empty) error
message; timer expiry yields exactly the state with the pending entry
removed, the timer disarmed and the promise rejected with
`Request timeout for <method>`; and after either of {response, timeout} has
settled the request, every further signal — a late or duplicate response, or
the timer — leaves the state unchanged (first wins, the loser is a no-op). -/
theorem sendRequest_settles_exactly_once {α : Type} (method : String) (s : ReqState α)
    (hp : s.pending = true) (ht : s.timerActive = true) (ho : s.outcome = none) :
    (∀ (errMsg : Option String) (p : α),
        (reqStep method s (.response true errMsg p)).outcome = some (.success p)) ∧
    (∀ (em : String) (p : α), em ≠ "" →
        (reqStep method s (.response false (some em) p)).outcome = some (.failure em)) ∧
    (reqStep method s ReqSignal.timerFires =
        { pending := false, timerActive := false,
          outcome := some (.failure ("Request timeout for " ++ method)) }) ∧
    (∀ sig, reqStep method (reqStep method s ReqSignal.timerFires) sig
        = reqStep method s ReqSignal.timerFires) ∧
    (∀ (ok : Bool) (errMsg : Option String) (p : α) sig,
        reqStep method (reqStep method s (.response ok errMsg p)) sig
          = reqStep method s (.response ok errMsg p)) := by
  obtain ⟨pe, tm, oc⟩ := s
  simp only [ReqState.pending] at hp
  simp only [ReqState.timerActive] at ht
  simp only [ReqState.outcome] at ho
  subst hp ht ho
  refine ⟨?_, ?_, ?_, ?_, ?_⟩
  · intro errMsg p; simp [reqStep, settleReq]
  · intro em p hem; simp [reqStep, settleReq, jsOrStr, hem]
  · simp [reqStep, settleReq]
  · intro sig
    cases sig with
    | response ok errMsg p => simp [reqStep, settleReq]
    | timerFires => simp [reqStep, settleReq]
  · intro ok errMsg p sig
    cases sig with
    | response ok2 errMsg2 p2 => cases ok <;> simp [reqStep, settleReq]
    | timerFires => cases ok <;> simp [reqStep, settleReq]

/-- Concrete check of C5 (amended) for `chat.send`: success settlement,
failure settlement carrying `boom`, the timeout state, a late response after
a timeout, and a timer firing after a response — all at concrete inputs. -/
theorem sendRequest_settles_exactly_once_witness :
    (reqStep "chat.send" (reqInit (α := Nat)) (.response true none 7)).outcome
        = some (ReqOutcome.success 7) ∧
    (reqStep "chat.send" (reqInit (α := Nat)) (.response false (some "boom") 7)).outcome
        = some (ReqOutcome.failure "boom") ∧
    (reqStep "chat.send" (reqInit (α := Nat)) ReqSignal.timerFires =
        { pending := false, timerActive := false,
          outcome := some (.failure ("Request timeout for " ++ "chat.send")) }) ∧
    reqStep "chat.send" (reqStep "chat.send" (reqInit (α := Nat)) ReqSignal.timerFires)
        (.response true none 9)
      = reqStep "chat.send" (reqInit (α := Nat)) ReqSignal.timerFires ∧
    reqStep "chat.send" (reqStep "chat.send" (reqInit (α := Nat)) (.response true none 7))
        ReqSignal.timerFires
      = reqStep "chat.send" (reqInit (α := Nat)) (.response true none 7) := by
  obtain ⟨c1, c2, c3, c4, c5⟩ :=
    sendRequest_settles_exactly_once (α := Nat) "chat.send" reqInit rfl rfl rfl
  exact ⟨c1 none 7, c2 "boom" 7 (by decide), c3, c4 _, c5 true none 7 _⟩

/-- Claim C6: the connect signature payload is the pipe-joined ordered tuple
`version | deviceId | clientId | clientMode | role | comma-joined scopes |
signedAt | token`, where a (non-empty) challenge nonce makes the version
`"v2"` and is appended as the ninth and final field, while without a nonce
the version is `"v1"` and the payload has exactly the eight fields and no
nonce. -/
theorem connect_signature_payload_shape (deviceId token : String) (signedAt : Nat)
    (n : String) (hn : n ≠ "") :
    connectPayloadParts deviceId token signedAt (some n)
        = ["v2", deviceId, "openclaw-control-ui", "ui", "operator",
           "operator.read,operator.write,operator.admin", toString signedAt, token, n] ∧
    (connectPayloadParts deviceId token signedAt (some n)).length = 9 ∧
    connectSignPayload deviceId token signedAt (some n)
        = joinWith "|" ["v2", deviceId, "openclaw-control-ui", "ui", "operator",
           "operator.read,operator.write,operator.admin", toString signedAt, token, n] ∧
    connectPayloadParts deviceId token signedAt none
        = ["v1", deviceId, "openclaw-control-ui", "ui", "operator",
           "operator.read,operator.write,operator.admin", toString signedAt, token] ∧
    (connectPayloadParts deviceId token signedAt none).length = 8 ∧
    connectSignPayload deviceId token signedAt none
        = joinWith "|" ["v1", deviceId, "openclaw-control-ui", "ui", "operator",
           "operator.read,operator.write,operator.admin", toString signedAt, token] := by
  have hscopes : joinWith "," scopesConst = "operator.read,operator.write,operator.admin" := by
    decide
  have hparts : connectPayloadParts deviceId token signedAt (some n)
      = ["v2", deviceId, "openclaw-control-ui", "ui", "operator",
         "operator.read,operator.write,operator.admin", toString signedAt, token, n] := by
    simp [connectPayloadParts, hn, hscopes, clientIdConst, clientModeConst, roleConst]
  have hpartsNone : connectPayloadParts deviceId token signedAt none
      = ["v1", deviceId, "openclaw-control-ui", "ui", "operator",
         "operator.read,operator.write,operator.admin", toString signedAt, token] := by
    simp [connectPayloadParts, hscopes, clientIdConst, clientModeConst, roleConst]
  refine ⟨hparts, by rw [hparts]; rfl, by rw [connectSignPayload, hparts],
    hpartsNone, by rw [hpartsNone]; rfl, by rw [connectSignPayload, hpartsNone]⟩

/-- Concrete check of C6 with nonce `abc`. -/
theorem connect_signature_payload_shape_witness :
    ("abc" : String) ≠ "" ∧
    connectPayloadParts "d3ad" "tok" 1700000000000 (some "abc")
        = ["v2", "d3ad", "openclaw-control-ui", "ui", "operator",
           "operator.read,operator.write,operator.admin", toString 1700000000000, "tok",
           "abc"] ∧
    (connectPayloadParts "d3ad" "tok" 1700000000000 none).length = 8 := by
  refine ⟨by decide, ?_, ?_⟩
  · exact (connect_signature_payload_shape "d3ad" "tok" 1700000000000 "abc" (by decide)).1
  · exact (connect_signature_payload_shape "d3ad" "tok" 1700000000000 "abc"
      (by decide)).2.2.2.2.1

/-! ## Device identity lemmas -/

set_option maxRecDepth 10000

/-- FIPS 180-4 test vector validating the SHA-256 embedding: the digest of
the empty message. -/
theorem sha256_test_vector_empty :
    bytesToHex (sha256 [])
      = "e3b0c44298fc1c149afbf4c8996fb92427ae41e4649b934ca495991b7852b855" := by
  decide

/-- FIPS 180-4 test vector validating the SHA-256 embedding: the digest of
`"abc"`. -/
theorem sha256_test_vector_abc :
    bytesToHex (sha256 [0x61, 0x62, 0x63])
      = "ba7816bf8f01cfea414140de5dae2223b00361a396177a9cb410ff61f20015ad" := by
  decide

theorem hexChar_mem_hexDigitsLower (n : Nat) : hexChar n ∈ hexDigitsLower := by
  unfold hexChar
  rcases h : hexDigitsLower[n]? with _ | x
  · rw [List.getD_eq_getElem?_getD, h]; decide
  · rw [List.getD_eq_getElem?_getD, h]
    exact List.getElem?_mem h

theorem hexPairs_chars_lower (bs : List Nat) :
    ∀ c ∈ (bs.map (fun b => [hexChar (b / 16), hexChar (b % 16)])).flatten,
      c ∈ hexDigitsLower := by
  induction bs with
  | nil => intro c hc; cases hc
  | cons b t ih =>
      intro c hc
      rw [List.map_cons, List.flatten_cons] at hc
      rcases List.mem_append.mp hc with h | h
      · rcases List.mem_cons.mp h with h1 | h2
        · exact h1 ▸ hexChar_mem_hexDigitsLower _
        · rcases List.mem_cons.mp h2 with h3 | h4
          · exact h3 ▸ hexChar_mem_hexDigitsLower _
          · cases h4
      · exact ih c h

theorem bytesToHex_chars_lower (bs : List Nat) :
    ∀ c ∈ (bytesToHex bs).data, c ∈ hexDigitsLower := by
  have hdata : (bytesToHex bs).data
      = (bs.map (fun b => [hexChar (b / 16), hexChar (b % 16)])).flatten := rfl
  rw [hdata]
  exact hexPairs_chars_lower bs

theorem derivePublicKeyRaw_strips_header (raw : List Nat) (h : raw.length = 32) :
    derivePublicKeyRaw (spkiHeaderBytes ++ raw) = raw := by
  unfold derivePublicKeyRaw
  have h1 : (spkiHeaderBytes ++ raw).length = spkiHeaderBytes.length + 32 := by
    simp [List.length_append, h, spkiHeaderBytes]
  have h2 : (spkiHeaderBytes ++ raw).take spkiHeaderBytes.length = spkiHeaderBytes := rfl
  have h3 : (spkiHeaderBytes ++ raw).drop spkiHeaderBytes.length = raw := rfl
  rw [if_pos ⟨h1, h2⟩, h3]

/-- Claim C7: for every raw 32-byte public key, the device id derived from
its Ed25519 SPKI encoding equals the lowercase hex SHA-256 digest of the raw
key with the algorithm-identifier envelope stripped: every character of the
id is a lowercase hex digit, and the derivation is a pure function of the
encoded key — the same keypair yields the same device id on every
derivation. -/
theorem deviceId_is_hex_sha256_of_stripped_spki (raw : List Nat) (h : raw.length = 32) :
    deviceIdFromSpki (spkiHeaderBytes ++ raw) = bytesToHex (sha256 raw) ∧
    (∀ c ∈ (deviceIdFromSpki (spkiHeaderBytes ++ raw)).data, c ∈ hexDigitsLower) ∧
    (∀ spki1 spki2 : List Nat, spki1 = spki2 → deviceIdFromSpki spki1 = deviceIdFromSpki spki2)
    := by
  refine ⟨?_, ?_, ?_⟩
  · unfold deviceIdFromSpki
    rw [derivePublicKeyRaw_strips_header raw h]
  · intro c hc
    exact bytesToHex_chars_lower _ c hc
  · intro s1 s2 hs
    rw [hs]

/-- Concrete check of C7 on the all-zero 32-byte key. -/
theorem deviceId_is_hex_sha256_of_stripped_spki_witness :
    (List.replicate 32 0).length = 32 ∧
    deviceIdFromSpki (spkiHeaderBytes ++ List.replicate 32 0)
        = bytesToHex (sha256 (List.replicate 32 0)) := by
  exact ⟨by decide,
    (deviceId_is_hex_sha256_of_stripped_spki (List.replicate 32 0) (by decide)).1⟩

/-- Claim C8: `getSessionTokens` returns the matching session's counters
(each defaulted with `|| 0`, cache counters passed through) when a session
with the configured key is listed, and returns the all-zero snapshot — a
normal return, not a failure — both when no session matches (including an
absent `sessions` array) and when the `sessions.list` request itself fails. -/
theorem getSessionTokens_match_or_zero (key : String)
    (sessions : List SessionMetadata) (s : SessionMetadata)
    (hfind : sessions.find? (fun x => x.sessionKey = key) = some s) :
    getSessionTokens key (.ok (some sessions))
        = { total := s.totalTokens.getD 0, input := s.inputTokens.getD 0,
            output := s.outputTokens.getD 0, cacheCreation := s.cacheCreationTokens,
            cacheRead := s.cacheReadTokens } ∧
    (∀ l : List SessionMetadata, l.find? (fun x => x.sessionKey = key) = none →
        getSessionTokens key (.ok (some l)) = zeroTokens) ∧
    getSessionTokens key (.ok none) = zeroTokens ∧
    (∀ e : String, getSessionTokens key (.error e) = zeroTokens) := by
  refine ⟨?_, ?_, ?_, ?_⟩
  · simp [getSessionTokens, hfind]
  · intro l hl; simp [getSessionTokens, hl, zeroTokens]
  · simp [getSessionTokens, zeroTokens]
  · intro e; simp [getSessionTokens, zeroTokens]

/-- Concrete check of C8: a two-session listing where the second entry
matches, an empty listing, an absent listing, and a failed query. -/
theorem getSessionTokens_match_or_zero_witness :
    getSessionTokens "k"
        (.ok (some [⟨"other", some 9, some 9, some 9, some 9, some 9⟩,
                    ⟨"k", some 50, some 20, some 30, some 5, none⟩]))
      = { total := 50, input := 20, output := 30, cacheCreation := some 5,
          cacheRead := none } ∧
    getSessionTokens "k" (.ok (some [])) = zeroTokens ∧
    getSessionTokens "k" (.ok none) = zeroTokens ∧
    getSessionTokens "k" (.error "Request timeout for sessions.list") = zeroTokens := by
  obtain ⟨c1, c2, c3, c4⟩ :=
    getSessionTokens_match_or_zero "k"
      [⟨"other", some 9, some 9, some 9, some 9, some 9⟩,
       ⟨"k", some 50, some 20, some 30, some 5, none⟩]
      ⟨"k", some 50, some 20, some 30, some 5, none⟩ (by decide)
  exact ⟨c1, c2 [] (by decide), c3, c4 "Request timeout for sessions.list"⟩

/-- Counterexample to claim C9 as stated: the returned elapsed time does not
equal the wall-clock span of the `sendPrompt` call.  In a call that enters at
clock 100, observes run completion at clock 350, and returns at clock 400
(the trailing `getSessionTokens()` query of line 503 having taken 50 ms), the
code returns `timeMs = 250` while the wall-clock span of the call is 300. -/
theorem sendPrompt_elapsed_not_call_span_cex :
    (sendPromptMetrics 100 ⟨10, 4, 6, some 2, none⟩ 350 ⟨30, 12, 18, some 5, none⟩).timeMs
        = 250 ∧
    callWallClockSpan ⟨100, 350, 400⟩ = 300 ∧
    ¬ (sendPromptMetrics 100 ⟨10, 4, 6, some 2, none⟩ 350
        ⟨30, 12, 18, some 5, none⟩).timeMs = callWallClockSpan ⟨100, 350, 400⟩ := by
  decide

/-- Claim C9 (amended: the returned elapsed time is the span from call entry
to run completion — the difference of the `Date.now()` readings taken at
entry and right after the run completed — which excludes the trailing
token-snapshot query and can therefore be less than the wall-clock span of
the whole call): `sendPrompt`'s returned token delta is the per-field
difference of the snapshot taken after the run completed and the snapshot
taken on entry; the `cacheCreation`/`cacheRead` deltas are present with their
(defaulted) difference when it is non-zero, and omitted when the difference
is zero — in particular when the counter is absent on both sides; the
returned elapsed time equals `completionTime - entryTime`, i.e. the call's
wall-clock span minus the time spent between run completion and return. -/
theorem sendPrompt_token_delta_fields (t0 t1 : Int) (st et : TokenUsage) :
    (sendPromptMetrics t0 st t1 et).tokens.total = et.total - st.total ∧
    (sendPromptMetrics t0 st t1 et).tokens.input = et.input - st.input ∧
    (sendPromptMetrics t0 st t1 et).tokens.output = et.output - st.output ∧
    (∀ d : Int, et.cacheCreation.getD 0 - st.cacheCreation.getD 0 = d → d ≠ 0 →
        (sendPromptMetrics t0 st t1 et).tokens.cacheCreation = some d) ∧
    (et.cacheCreation.getD 0 - st.cacheCreation.getD 0 = 0 →
        (sendPromptMetrics t0 st t1 et).tokens.cacheCreation = none) ∧
    (et.cacheCreation = none → st.cacheCreation = none →
        (sendPromptMetrics t0 st t1 et).tokens.cacheCreation = none) ∧
    (∀ d : Int, et.cacheRead.getD 0 - st.cacheRead.getD 0 = d → d ≠ 0 →
        (sendPromptMetrics t0 st t1 et).tokens.cacheRead = some d) ∧
    (et.cacheRead.getD 0 - st.cacheRead.getD 0 = 0 →
        (sendPromptMetrics t0 st t1 et).tokens.cacheRead = none) ∧
    (et.cacheRead = none → st.cacheRead = none →
        (sendPromptMetrics t0 st t1 et).tokens.cacheRead = none) ∧
    (sendPromptMetrics t0 st t1 et).timeMs = t1 - t0 ∧
    (∀ tl : PromptTimeline, tl.entryTime = t0 → tl.completionTime = t1 →
        (sendPromptMetrics t0 st t1 et).timeMs
          = callWallClockSpan tl - (tl.returnTime - tl.completionTime)) := by
  refine ⟨rfl, rfl, rfl, ?_, ?_, ?_, ?_, ?_, ?_, rfl, ?_⟩
  · intro d hd hdne
    simp [sendPromptMetrics, computeTokenDelta, intOrUndef, hd, hdne]
  · intro hz
    simp [sendPromptMetrics, computeTokenDelta, intOrUndef, hz]
  · intro he hs
    simp [sendPromptMetrics, computeTokenDelta, intOrUndef, he, hs]
  · intro d hd hdne
    simp [sendPromptMetrics, computeTokenDelta, intOrUndef, hd, hdne]
  · intro hz
    simp [sendPromptMetrics, computeTokenDelta, intOrUndef, hz]
  · intro he hs
    simp [sendPromptMetrics, computeTokenDelta, intOrUndef, he, hs]
  · intro tl h0 h1
    obtain ⟨e, c, r⟩ := tl
    simp only [PromptTimeline.entryTime] at h0
    simp only [PromptTimeline.completionTime] at h1
    subst h0 h1
    simp only [sendPromptMetrics, callWallClockSpan]
    omega

/-- Concrete check of C9 (amended): start snapshot `{10, 4, 6, cacheCreation
2, no cacheRead}`, end snapshot `{30, 12, 18, cacheCreation 5, no
cacheRead}`, entry reading 100, completion reading 350, return at 400 after a
50 ms trailing token query. -/
theorem sendPrompt_token_delta_fields_witness :
    (sendPromptMetrics 100 ⟨10, 4, 6, some 2, none⟩ 350 ⟨30, 12, 18, some 5, none⟩).tokens.total
        = 20 ∧
    (sendPromptMetrics 100 ⟨10, 4, 6, some 2, none⟩ 350
        ⟨30, 12, 18, some 5, none⟩).tokens.cacheCreation = some 3 ∧
    (sendPromptMetrics 100 ⟨10, 4, 6, some 2, none⟩ 350
        ⟨30, 12, 18, some 5, none⟩).tokens.cacheRead = none ∧
    (sendPromptMetrics 100 ⟨10, 4, 6, some 2, none⟩ 350 ⟨30, 12, 18, some 5, none⟩).timeMs
        = 250 ∧
    (sendPromptMetrics 100 ⟨10, 4, 6, some 2, none⟩ 350 ⟨30, 12, 18, some 5, none⟩).timeMs
        = callWallClockSpan ⟨100, 350, 400⟩ - (400 - 350) := by
  obtain ⟨c1, _, _, c4, _, _, _, c8, _, c10, c11⟩ :=
    sendPrompt_token_delta_fields 100 350 ⟨10, 4, 6, some 2, none⟩ ⟨30, 12, 18, some 5, none⟩
  exact ⟨c1, c4 3 (by decide) (by decide), c8 (by decide), c10,
    c11 ⟨100, 350, 400⟩ (by decide) (by decide)⟩

/-- Claim C10: `resetSession` never rejects: whatever the settlement of the
underlying `sessions.reset` request — success, a server `ok=false` failure,
or a request timeout — the `try`/`catch` swallows any error and the method
returns normally. -/
theorem resetSession_never_rejects :
    (∀ p : Unit, resetSession (ReqOutcome.success p) = .ok "Session reset successfully") ∧
    (∀ msg : String, resetSession (α := Unit) (ReqOutcome.failure msg)
        = .ok "Session reset: no existing session (OK)") ∧
    (∀ r : ReqOutcome Unit, ∃ m, resetSession r = Except.ok m) := by
  refine ⟨fun p => rfl, fun msg => rfl, ?_⟩
  intro r
  cases r with
  | success p => exact ⟨_, rfl⟩
  | failure msg => exact ⟨_, rfl⟩

end Moltbot
